import Mathlib

/-!
Shallow embedding of `build/generate-evergreen-config.py` (the Evergreen
task-matrix generator of the mongo-c-driver repository): the axis spaces,
the constraint engine (`require` / `prohibit` / `both_or_neither` raising
`Prohibited`, modelled as the error of `Except Unit`), the matrix
generator, and the derivation of names, tags, timeout options and
dependencies for the integration-test and auth-test task families, plus
the names of the fixed compile-task catalog.

Python axis values are either strings or booleans; `PyVal` mirrors this,
with Python truthiness (`False` and `""` falsy, every other value truthy).
The Python `matrix` function wraps the cartesian product in a `set`; since
all product tuples are pairwise distinct the set has exactly the product's
elements, and we model it as the product list (set-iteration order in
Python is arbitrary, so every claim below is order-independent or about
the collection of elements).
-/

/-- A Python axis value: either a string or a boolean (`False` is the
designated "feature absent" sentinel). -/
inductive PyVal where
  | str : String → PyVal
  | bool : Bool → PyVal
deriving DecidableEq, Repr

/-- Python truthiness for the values that occur as axis values. -/
def PyVal.truthy : PyVal → Bool
  | .str s => !s.isEmpty
  | .bool b => b

/-- `Task.display` from the source: `False` renders as `'no' + axis_name`,
`True` renders as the axis name, a string renders as itself. -/
def Task.display (axisName : String) (value : PyVal) : String :=
  match value with
  | .bool false => "no" ++ axisName
  | .bool true => axisName
  | .str s => s

/-- The legal values of the `valgrind` axis. -/
def valgrindValues : List PyVal := [.str "valgrind", .bool false]

/-- The legal values of the `asan` axis. -/
def asanValues : List PyVal := [.str "asan", .bool false]

/-- The legal values of the `coverage` axis. -/
def coverageValues : List PyVal := [.str "coverage", .bool false]

/-- The legal values of the `version` axis. -/
def versionValues : List PyVal :=
  [.str "latest", .str "4.0", .str "3.6", .str "3.4", .str "3.2", .str "3.0"]

/-- The legal values of the `topology` axis. -/
def topologyValues : List PyVal :=
  [.str "server", .str "replica_set", .str "sharded_cluster"]

/-- The legal values of the `auth` axis. -/
def authValues : List PyVal := [.bool true, .bool false]

/-- The legal values of the `sasl` axis (both families). -/
def saslValues : List PyVal := [.str "sasl", .str "sspi", .bool false]

/-- The legal values of the `ssl` axis of the integration family. -/
def sslValues : List PyVal :=
  [.str "openssl", .str "darwinssl", .str "winssl", .bool false]

/-- The legal values of the `ssl` axis of the auth family (no falsy
value). -/
def authSslValues : List PyVal :=
  [.str "openssl", .str "darwinssl", .str "winssl"]

/-- `integration_task_axes`: the eight axes of the integration-test family,
in declaration order, each with its ordered list of legal values. -/
def integration_task_axes : List (String × List PyVal) :=
  [ ("valgrind", valgrindValues),
    ("asan", asanValues),
    ("coverage", coverageValues),
    ("version", versionValues),
    ("topology", topologyValues),
    ("auth", authValues),
    ("sasl", saslValues),
    ("ssl", sslValues) ]

/-- An integration-test task instance: one value per axis of
`integration_task_axes` (the Python class is a namedtuple over the axes). -/
structure IntegrationTask where
  valgrind : PyVal
  asan : PyVal
  coverage : PyVal
  version : PyVal
  topology : PyVal
  auth : PyVal
  sasl : PyVal
  ssl : PyVal
deriving DecidableEq, Repr

/-- `getattr(task, axis_name)` for integration tasks: field access by axis
name (only ever applied to the eight declared axis names). -/
def IntegrationTask.get (t : IntegrationTask) : String → PyVal
  | "valgrind" => t.valgrind
  | "asan" => t.asan
  | "coverage" => t.coverage
  | "version" => t.version
  | "topology" => t.topology
  | "auth" => t.auth
  | "sasl" => t.sasl
  | "ssl" => t.ssl
  | _ => .bool false

/-- The inner `name_part` helper of `IntegrationTask.name`: the display of
the axis value, with `replica_set` rendered `replica-set` and
`sharded_cluster` rendered `sharded`. -/
def namePart (axisName : String) (value : PyVal) : String :=
  let part := Task.display axisName value
  if part = "replica_set" then "replica-set"
  else if part = "sharded_cluster" then "sharded"
  else part

/-- `IntegrationTask.name` from the source: the prefix `test` followed by
hyphen-joined per-axis `name_part` tokens in axis-declaration order, an
axis contributing a token iff its value is truthy or it is one of
`auth`/`sasl`/`ssl`. -/
def IntegrationTask.name (t : IntegrationTask) : String :=
  "test" ++ "-" ++ String.intercalate "-"
    (((integration_task_axes.map Prod.fst).filter fun axisName =>
        (t.get axisName).truthy || axisName == "auth" || axisName == "sasl"
          || axisName == "ssl").map
      fun axisName => namePart axisName (t.get axisName))

/-- `auth_task_axes`: the two axes of the auth-test family. -/
def auth_task_axes : List (String × List PyVal) :=
  [ ("sasl", saslValues),
    ("ssl", authSslValues) ]

/-- An auth-test task instance (namedtuple over `auth_task_axes`). -/
structure AuthTask where
  sasl : PyVal
  ssl : PyVal
deriving DecidableEq, Repr

/-- `AuthTask.name` from the source: `authentication-tests-` plus the ssl
display, with a `-nosasl` suffix when `sasl` is falsy. -/
def AuthTask.name (t : AuthTask) : String :=
  let rv := "authentication-tests" ++ "-" ++ Task.display "ssl" t.ssl
  if t.sasl.truthy then rv else rv ++ "-nosasl"

/-- `itertools.product` over the axis value lists: the rightmost axis
varies fastest. -/
def pyProduct : List (List PyVal) → List (List PyVal)
  | [] => [[]]
  | vs :: rest => vs.flatMap fun v => (pyProduct rest).map fun tail => v :: tail

/-- `matrix(IntegrationTask, integration_task_axes)`: every cell of the
cartesian product, constructed into an `IntegrationTask` (the Python code
unpacks each 8-tuple into the namedtuple constructor). -/
def integrationMatrix : List IntegrationTask :=
  (pyProduct (integration_task_axes.map Prod.snd)).filterMap fun cell =>
    match cell with
    | [vg, asan, cov, ver, topo, auth, sasl, ssl] =>
        some ⟨vg, asan, cov, ver, topo, auth, sasl, ssl⟩
    | _ => none

/-- `matrix(AuthTask, auth_task_axes)`. -/
def authMatrix : List AuthTask :=
  (pyProduct (auth_task_axes.map Prod.snd)).filterMap fun cell =>
    match cell with
    | [sasl, ssl] => some ⟨sasl, ssl⟩
    | _ => none

/-- The `Prohibited` exception is modelled as the error of `Except Unit`:
`require(rule)` raises `Prohibited` when the rule is falsy. -/
def require (rule : Bool) : Except Unit Unit :=
  if rule then .ok () else .error ()

/-- `prohibit(rule)` raises `Prohibited` when the rule is truthy. -/
def prohibit (rule : Bool) : Except Unit Unit :=
  if rule then .error () else .ok ()

/-- `both_or_neither(rule0, rule1)`. -/
def both_or_neither (rule0 rule1 : Bool) : Except Unit Unit :=
  if rule0 then require rule1 else prohibit rule1

/-- `allow_integration_test_task` from the source: the integration-family
constraint rules, raising `Prohibited` (the `Except` error) to reject. -/
def allow_integration_test_task (task : IntegrationTask) :
    Except Unit Unit := do
  if task.valgrind.truthy then
    prohibit task.asan.truthy
    prohibit task.sasl.truthy
    require (task.ssl == .str "openssl" || task.ssl == .bool false)
    prohibit task.coverage.truthy
    -- Valgrind only with auth+SSL or no auth + no SSL.
    if task.auth.truthy then
      require (task.ssl == .str "openssl")
    else
      prohibit task.ssl.truthy

  if task.auth.truthy then
    require task.ssl.truthy

  if task.sasl == .str "sspi" then
    -- Only one task.
    require (task.topology == .str "server")
    require (task.version == .str "latest")
    require (task.ssl == .str "winssl")
    require task.auth.truthy

  if !task.ssl.truthy then
    prohibit task.sasl.truthy

  if task.coverage.truthy then
    prohibit task.sasl.truthy
    if task.auth.truthy then
      require (task.ssl == .str "openssl")
    else
      prohibit task.ssl.truthy

  if task.asan.truthy then
    prohibit task.sasl.truthy
    prohibit task.coverage.truthy
    -- Address sanitizer only with auth+SSL or no auth + no SSL.
    if task.auth.truthy then
      require (task.ssl == .str "openssl")
    else
      prohibit task.ssl.truthy

/-- `allow_auth_test_task` from the source. -/
def allow_auth_test_task (task : AuthTask) : Except Unit Unit := do
  both_or_neither (task.ssl == .str "winssl") (task.sasl == .str "sspi")
  if !task.sasl.truthy then
    require (task.ssl == .str "openssl")

/-- Whether a constraint check accepted the candidate (no `Prohibited`
raised). -/
def accepted (e : Except Unit Unit) : Bool :=
  match e with
  | .ok _ => true
  | .error _ => false

/-- String content of an axis value used directly as a tag
(`task.tags.add(task.topology)`); only ever applied to string values. -/
def PyVal.strVal : PyVal → String
  | .str s => s
  | .bool true => "True"
  | .bool false => "False"

/-- A task instance together with the fields the generation loop fills in:
tags (a Python `set`, modelled as the list of added tags, which are
pairwise distinct here), the `exec_timeout_secs` option, and the
`depends_on` list of upstream task names. -/
structure DecoratedIntegrationTask where
  task : IntegrationTask
  tags : List String
  exec_timeout_secs : Option Nat
  depends_on : List String
deriving DecidableEq, Repr

/-- The tag block of the loop body of `make_integration_test_tasks`. -/
def integrationTags (task : IntegrationTask) : List String :=
  if task.valgrind.truthy then ["test-valgrind"]
  else if task.coverage.truthy then ["test-coverage"]
  else if task.asan.truthy then ["test-asan"]
  else [task.topology.strVal, task.version.strVal,
        Task.display "ssl" task.ssl, Task.display "sasl" task.sasl,
        Task.display "auth" task.auth]

/-- The `exec_timeout_secs` option set by the loop body of
`make_integration_test_tasks` (absent when no branch sets it). -/
def integrationTimeout (task : IntegrationTask) : Option Nat :=
  if task.valgrind.truthy then some 7200
  else if task.coverage.truthy then some 3600
  else if task.asan.truthy then some 3600
  else none

/-- The dependency block of the loop body of `make_integration_test_tasks`:
coverage tasks use a build function instead of depending on a task. -/
def integrationDeps (task : IntegrationTask) : List String :=
  if task.valgrind.truthy then ["debug-compile-valgrind"]
  else if task.asan.truthy && task.ssl.truthy then
    ["debug-compile-asan-clang-" ++ Task.display "ssl" task.ssl]
  else if task.asan.truthy then ["debug-compile-asan-clang"]
  else if !task.coverage.truthy then
    ["debug-compile-" ++ Task.display "sasl" task.sasl ++ "-"
      ++ Task.display "ssl" task.ssl]
  else []

/-- The whole loop body of `make_integration_test_tasks` applied to an
accepted candidate. -/
def decorateIntegration (task : IntegrationTask) : DecoratedIntegrationTask :=
  { task := task
    tags := integrationTags task
    exec_timeout_secs := integrationTimeout task
    depends_on := integrationDeps task }

/-- The `for task in matrix(...): try ... except Prohibited: continue ...`
loop of `make_integration_test_tasks`: rejected candidates are skipped,
accepted ones are decorated and appended. -/
def integrationLoop : List IntegrationTask → List DecoratedIntegrationTask
  | [] => []
  | task :: rest =>
    match allow_integration_test_task task with
    | .error _ => integrationLoop rest
    | .ok _ => decorateIntegration task :: integrationLoop rest

/-- `make_integration_test_tasks` from the source. -/
def make_integration_test_tasks : List DecoratedIntegrationTask :=
  integrationLoop integrationMatrix

/-- An auth task with the fields the generation loop fills in. -/
structure DecoratedAuthTask where
  task : AuthTask
  tags : List String
  depends_on : List String
deriving DecidableEq, Repr

/-- The loop body of `make_auth_test_tasks` applied to an accepted
candidate. -/
def decorateAuth (task : AuthTask) : DecoratedAuthTask :=
  { task := task
    tags := ["authentication-tests", Task.display "ssl" task.ssl,
             Task.display "sasl" task.sasl]
    depends_on := ["debug-compile-" ++ Task.display "sasl" task.sasl ++ "-"
                    ++ Task.display "ssl" task.ssl] }

/-- The generation loop of `make_auth_test_tasks`. -/
def authLoop : List AuthTask → List DecoratedAuthTask
  | [] => []
  | task :: rest =>
    match allow_auth_test_task task with
    | .error _ => authLoop rest
    | .ok _ => decorateAuth task :: authLoop rest

/-- `make_auth_test_tasks` from the source. -/
def make_auth_test_tasks : List DecoratedAuthTask :=
  authLoop authMatrix

/-- The names of the fixed `compile_tasks` catalog, in declaration order. -/
def compile_task_names : List String :=
  [ "debug-compile-compression-zlib",
    "debug-compile-compression-snappy",
    "debug-compile-compression",
    "debug-compile-no-align",
    "debug-compile-nosasl-nossl",
    "debug-compile-lto",
    "debug-compile-lto-thin",
    "debug-compile-c11",
    "debug-compile-c99",
    "debug-compile-c89",
    "debug-compile-valgrind",
    "debug-compile-coverage",
    "debug-compile-no-counters",
    "debug-compile-asan-clang",
    "debug-compile-asan-gcc",
    "debug-compile-asan-clang-openssl",
    "debug-compile-ubsan",
    "debug-compile-scan-build" ]

/-- The names of every generated task instance, both families. -/
def allGeneratedNames : List String :=
  make_integration_test_tasks.map (fun d => d.task.name)
    ++ make_auth_test_tasks.map (fun d => d.task.name)

/-- An injective-by-construction numeric key for a string (base-2097152
digits with a leading 1); duplicate names yield duplicate keys, so
`List.Nodup.of_map` transfers no-duplication of the key list back to the
name list, which is far cheaper to evaluate than direct string
comparisons. -/
def strKey (s : String) : Nat :=
  s.data.foldl (fun acc c => acc * 2097152 + c.toNat) 1

/-- Modelled from the spec (§4.3): the display rendering of one axis value
for name derivation — a falsy value renders as `no` + axis name, `True` as
the axis name, a string as itself except for the two special renderings
`replica_set` → `replica-set` and `sharded_cluster` → `sharded`. -/
def specRender (axisName : String) (v : PyVal) : String :=
  match v with
  | .str "replica_set" => "replica-set"
  | .str "sharded_cluster" => "sharded"
  | .str s => s
  | .bool true => axisName
  | .bool false => "no" ++ axisName

/-- Modelled from the spec (§4.3): the optional name token contributed by
one axis — present when the value is non-falsy or the axis is one of
`auth`/`sasl`/`ssl` (those three contribute a `no`-prefixed token when
falsy). -/
def specToken (axisName : String) (v : PyVal) : Option String :=
  if v.truthy || axisName == "auth" || axisName == "sasl"
      || axisName == "ssl" then
    some (specRender axisName v)
  else none

/-- Modelled from the spec (§4.3): integration-family name derivation —
the fixed prefix followed by the hyphen-joined per-axis tokens in fixed
axis-declaration order. -/
def specIntegrationName (t : IntegrationTask) : String :=
  "test-" ++ String.intercalate "-"
    ([ specToken "valgrind" t.valgrind,
       specToken "asan" t.asan,
       specToken "coverage" t.coverage,
       specToken "version" t.version,
       specToken "topology" t.topology,
       specToken "auth" t.auth,
       specToken "sasl" t.sasl,
       specToken "ssl" t.ssl ].reduceOption)

/-- Modelled from the spec (§4.3): auth-family name derivation — the fixed
prefix plus the ssl display token, with a `-nosasl` suffix exactly when
`sasl` is falsy. -/
def specAuthName (t : AuthTask) : String :=
  ("authentication-tests-" ++ specRender "ssl" t.ssl)
    ++ (if t.sasl.truthy then "" else "-nosasl")

/-- The concrete valgrind scenario of claim C2: valgrind on, auth on, ssl
`openssl`, version `latest`, topology `server`, everything else off. -/
def valgrindScenario : IntegrationTask :=
  ⟨.str "valgrind", .bool false, .bool false, .str "latest", .str "server",
   .bool true, .bool false, .str "openssl"⟩

/-- A surviving plain (no valgrind/asan/coverage) candidate whose computed
dependency name appears nowhere in the in-file compile-task catalog. -/
def plainSaslOpenssl : IntegrationTask :=
  ⟨.bool false, .bool false, .bool false, .str "latest", .str "server",
   .bool true, .str "sasl", .str "openssl"⟩

/-- The generation loop keeps exactly the candidates the constraint check
accepts, decorating each: `Prohibited` never escapes a loop iteration. -/
theorem integrationLoop_eq_filter (l : List IntegrationTask) :
    integrationLoop l =
      (l.filter fun t => accepted (allow_integration_test_task t)).map
        decorateIntegration := by
  induction l with
  | nil => rfl
  | cons t rest ih =>
    cases h : allow_integration_test_task t with
    | error e => simp [integrationLoop, h, List.filter_cons, accepted, ih]
    | ok v => simp [integrationLoop, h, List.filter_cons, accepted, ih]

/-- The auth generation loop keeps exactly the accepted candidates. -/
theorem authLoop_eq_filter (l : List AuthTask) :
    authLoop l =
      (l.filter fun t => accepted (allow_auth_test_task t)).map
        decorateAuth := by
  induction l with
  | nil => rfl
  | cons t rest ih =>
    cases h : allow_auth_test_task t with
    | error e => simp [authLoop, h, List.filter_cons, accepted, ih]
    | ok v => simp [authLoop, h, List.filter_cons, accepted, ih]

set_option maxRecDepth 200000 in
set_option maxHeartbeats 8000000 in
/-- C1: for every two distinct integration-task instances returned by
`make_integration_test_tasks`, the derived names are distinct — stated
contrapositively: equal derived names force equal instances (injectivity
of name derivation over the surviving set). -/
theorem integrationNamesInjective :
    ∀ d1 ∈ make_integration_test_tasks, ∀ d2 ∈ make_integration_test_tasks,
      d1.task.name = d2.task.name → d1 = d2 := by
  have hkeys :
      ((make_integration_test_tasks.map fun d => d.task.name).map
        strKey).Nodup := by decide
  exact fun d1 h1 d2 h2 h =>
    List.inj_on_of_nodup_map (List.Nodup.of_map strKey hkeys) h1 h2 h

set_option maxRecDepth 200000 in
set_option maxHeartbeats 8000000 in
/-- Witness for C1: the hypotheses are satisfiable — the decorated
valgrind scenario is a member of the surviving set with equal name to
itself. -/
theorem integrationNamesInjective_witness :
    decorateIntegration valgrindScenario = decorateIntegration valgrindScenario :=
  integrationNamesInjective (decorateIntegration valgrindScenario) (by decide)
    (decorateIntegration valgrindScenario) (by decide) rfl

set_option maxRecDepth 200000 in
set_option maxHeartbeats 8000000 in
/-- C2 counterexample: the concrete valgrind scenario survives filtering
but its derived name is not `test-valgrind-server-latest-auth-openssl`
(the code puts `version` before `topology` and always includes a `sasl`
token, here `nosasl`). -/
theorem valgrindScenarioName_cex :
    accepted (allow_integration_test_task valgrindScenario) = true ∧
    IntegrationTask.name valgrindScenario ≠
      "test-valgrind-server-latest-auth-openssl" := by decide

set_option maxRecDepth 200000 in
set_option maxHeartbeats 8000000 in
/-- C2 as amended: the valgrind scenario survives filtering, derives the
name `test-valgrind-latest-server-auth-nosasl-openssl`, carries tag
`test-valgrind`, has an exec-timeout override (7200 s), and depends
exactly on `debug-compile-valgrind`. -/
theorem valgrindScenario_amended :
    decorateIntegration valgrindScenario ∈ make_integration_test_tasks ∧
    IntegrationTask.name valgrindScenario =
      "test-valgrind-latest-server-auth-nosasl-openssl" ∧
    "test-valgrind" ∈ (decorateIntegration valgrindScenario).tags ∧
    (decorateIntegration valgrindScenario).exec_timeout_secs = some 7200 ∧
    (decorateIntegration valgrindScenario).depends_on =
      ["debug-compile-valgrind"] := by decide

set_option maxRecDepth 200000 in
set_option maxHeartbeats 8000000 in
/-- C7: an auth-task candidate survives filtering iff `ssl = winssl`
exactly when `sasl = sspi` and a falsy `sasl` forces `ssl = openssl`; in
particular the candidate `{sasl: False, ssl: darwinssl}` is rejected. -/
theorem authFilterCharacterization :
    (∀ t ∈ authMatrix,
      (accepted (allow_auth_test_task t) = true ↔
        ((t.ssl = .str "winssl" ↔ t.sasl = .str "sspi") ∧
         (t.sasl.truthy = false → t.ssl = .str "openssl")))) ∧
    accepted (allow_auth_test_task ⟨.bool false, .str "darwinssl"⟩) =
      false := by decide

/-- C9: constraint rejection (`Prohibited`) is handled exactly at the
generation loop and only skips the candidate — both generators are total
functions returning exactly the decorated accepted candidates. -/
theorem prohibitedOnlySkips :
    make_integration_test_tasks =
      (integrationMatrix.filter fun t =>
        accepted (allow_integration_test_task t)).map decorateIntegration ∧
    make_auth_test_tasks =
      (authMatrix.filter fun t =>
        accepted (allow_auth_test_task t)).map decorateAuth :=
  ⟨integrationLoop_eq_filter integrationMatrix,
   authLoop_eq_filter authMatrix⟩

set_option maxRecDepth 200000 in
set_option maxHeartbeats 8000000 in
/-- C10: the surviving auth-task instances are exactly the four expected
ones, with exactly the four expected derived names. -/
theorem authSurvivorsExact :
    make_auth_test_tasks.map (fun d => d.task) =
      [⟨.str "sasl", .str "openssl"⟩, ⟨.str "sasl", .str "darwinssl"⟩,
       ⟨.str "sspi", .str "winssl"⟩, ⟨.bool false, .str "openssl"⟩] ∧
    make_auth_test_tasks.map (fun d => d.task.name) =
      ["authentication-tests-openssl", "authentication-tests-darwinssl",
       "authentication-tests-winssl",
       "authentication-tests-openssl-nosasl"] := by decide

set_option maxRecDepth 200000 in
set_option maxHeartbeats 8000000 in
/-- C3: every surviving integration-task instance satisfies the valgrind
rule soundness (valgrind set forces asan/sasl/coverage unset and
`ssl ∈ {openssl, unset}` with `ssl = openssl` exactly when auth is set)
and the auth rule soundness (auth set forces a non-falsy ssl). -/
theorem survivorRuleSoundness :
    ∀ d ∈ make_integration_test_tasks,
      (d.task.valgrind.truthy = true →
        d.task.asan.truthy = false ∧ d.task.sasl.truthy = false ∧
        d.task.coverage.truthy = false ∧
        (d.task.ssl = .str "openssl" ∨ d.task.ssl = .bool false) ∧
        (d.task.ssl = .str "openssl" ↔ d.task.auth.truthy = true)) ∧
      (d.task.auth.truthy = true → d.task.ssl.truthy = true) := by decide

set_option maxRecDepth 200000 in
set_option maxHeartbeats 8000000 in
/-- Witness for C3: the valgrind scenario survives, has auth set, and
indeed has a truthy ssl. -/
theorem survivorRuleSoundness_witness :
    (decorateIntegration valgrindScenario).task.ssl.truthy = true :=
  (survivorRuleSoundness (decorateIntegration valgrindScenario)
    (by decide)).2 (by decide)

set_option maxRecDepth 200000 in
set_option maxHeartbeats 8000000 in
/-- C6: every surviving integration-task instance's dependency list is
computed by the claimed priority order (valgrind, then asan+ssl, then
asan, then coverage with no dependency, then the `(sasl, ssl)`-keyed
compile task). -/
theorem dependencyPriority :
    ∀ d ∈ make_integration_test_tasks,
      d.depends_on =
        (if d.task.valgrind.truthy then ["debug-compile-valgrind"]
         else if d.task.asan.truthy && d.task.ssl.truthy then
           ["debug-compile-asan-clang-" ++ Task.display "ssl" d.task.ssl]
         else if d.task.asan.truthy then ["debug-compile-asan-clang"]
         else if d.task.coverage.truthy then []
         else ["debug-compile-" ++ Task.display "sasl" d.task.sasl ++ "-"
                ++ Task.display "ssl" d.task.ssl]) := by decide

set_option maxRecDepth 200000 in
set_option maxHeartbeats 8000000 in
/-- Witness for C6: the surviving valgrind scenario's dependency list is
exactly `[debug-compile-valgrind]`. -/
theorem dependencyPriority_witness :
    (decorateIntegration valgrindScenario).depends_on =
      ["debug-compile-valgrind"] :=
  (dependencyPriority (decorateIntegration valgrindScenario)
    (by decide)).trans (by decide)

set_option maxRecDepth 200000 in
set_option maxHeartbeats 8000000 in
/-- C8: for every surviving integration-task instance the mode axes
valgrind/coverage/asan are mutually exclusive; a set mode axis yields
exactly the corresponding mode tag and a timeout override (7200 s for
valgrind — longer than the 3600 s for coverage and asan); with no mode
axis set, the tags are the topology, version, and ssl/sasl/auth display
tokens and there is no timeout override. -/
theorem tagAndTimeoutDerivation :
    ∀ d ∈ make_integration_test_tasks,
      (¬(d.task.valgrind.truthy = true ∧ d.task.coverage.truthy = true)) ∧
      (¬(d.task.valgrind.truthy = true ∧ d.task.asan.truthy = true)) ∧
      (¬(d.task.coverage.truthy = true ∧ d.task.asan.truthy = true)) ∧
      (d.task.valgrind.truthy = true →
        d.tags = ["test-valgrind"] ∧ d.exec_timeout_secs = some 7200) ∧
      (d.task.coverage.truthy = true →
        d.tags = ["test-coverage"] ∧ d.exec_timeout_secs = some 3600) ∧
      (d.task.asan.truthy = true →
        d.tags = ["test-asan"] ∧ d.exec_timeout_secs = some 3600) ∧
      (d.task.valgrind.truthy = false → d.task.coverage.truthy = false →
        d.task.asan.truthy = false →
        d.tags = [d.task.topology.strVal, d.task.version.strVal,
                  Task.display "ssl" d.task.ssl,
                  Task.display "sasl" d.task.sasl,
                  Task.display "auth" d.task.auth] ∧
        d.exec_timeout_secs = none) := by decide

set_option maxRecDepth 200000 in
set_option maxHeartbeats 8000000 in
/-- Witness for C8: the surviving valgrind scenario carries exactly the
tag `test-valgrind` and the 7200 s timeout override. -/
theorem tagAndTimeoutDerivation_witness :
    (decorateIntegration valgrindScenario).tags = ["test-valgrind"] ∧
    (decorateIntegration valgrindScenario).exec_timeout_secs = some 7200 :=
  (tagAndTimeoutDerivation (decorateIntegration valgrindScenario)
    (by decide)).2.2.2.1 (by decide)

set_option maxRecDepth 200000 in
set_option maxHeartbeats 8000000 in
/-- C5 counterexample: the surviving plain instance with `sasl = sasl` and
`ssl = openssl` has computed dependency `debug-compile-sasl-openssl`,
which occurs neither among the in-file compile-task catalog names nor
among any generated task name of either family. -/
theorem dependencyExists_cex :
    decorateIntegration plainSaslOpenssl ∈ make_integration_test_tasks ∧
    (decorateIntegration plainSaslOpenssl).depends_on =
      ["debug-compile-sasl-openssl"] ∧
    "debug-compile-sasl-openssl" ∉ compile_task_names ∧
    "debug-compile-sasl-openssl" ∉ allGeneratedNames := by decide

set_option maxRecDepth 200000 in
set_option maxHeartbeats 8000000 in
/-- C5 as amended: valgrind- and asan-mode dependencies all exist in the
in-file compile-task catalog; a surviving integration instance has an
empty dependency list exactly when it is coverage-mode; every other
dependency (and every auth-family dependency) is the
`debug-compile-<sasl display>-<ssl display>` name keyed by the instance's
sasl/ssl displays, which for most instances names a compile task defined
outside the in-file catalog. -/
theorem dependencyExists_amended :
    (∀ d ∈ make_integration_test_tasks,
      (d.task.valgrind.truthy = true ∨ d.task.asan.truthy = true) →
        ∀ n ∈ d.depends_on, n ∈ compile_task_names) ∧
    (∀ d ∈ make_integration_test_tasks,
      (d.depends_on = [] ↔ d.task.coverage.truthy = true)) ∧
    (∀ d ∈ make_integration_test_tasks, ∀ n ∈ d.depends_on,
      n ∈ compile_task_names ∨
        n = "debug-compile-" ++ Task.display "sasl" d.task.sasl ++ "-"
              ++ Task.display "ssl" d.task.ssl) ∧
    (∀ d ∈ make_auth_test_tasks, ∀ n ∈ d.depends_on,
      n = "debug-compile-" ++ Task.display "sasl" d.task.sasl ++ "-"
            ++ Task.display "ssl" d.task.ssl) := by decide

/-- Truthiness of a boolean axis value is the boolean itself. -/
theorem truthy_bool (b : Bool) : (PyVal.bool b).truthy = b := rfl

/-- Version values render identically under the code's `name_part` and the
spec's rendering, and are all truthy. -/
theorem namePart_version_spec :
    ∀ v ∈ versionValues,
      namePart "version" v = specRender "version" v ∧ v.truthy = true := by
  intro v h
  fin_cases h <;> exact ⟨rfl, rfl⟩

/-- Topology values render identically under the code's `name_part` and
the spec's rendering (including the `replica-set` and `sharded` special
cases), and are all truthy. -/
theorem namePart_topology_spec :
    ∀ v ∈ topologyValues,
      namePart "topology" v = specRender "topology" v ∧ v.truthy = true := by
  intro v h
  fin_cases h <;> exact ⟨rfl, rfl⟩

/-- Sasl values render identically under `name_part` and the spec. -/
theorem namePart_sasl_spec :
    ∀ v ∈ saslValues, namePart "sasl" v = specRender "sasl" v := by
  intro v h
  fin_cases h <;> rfl

/-- Ssl values render identically under `name_part` and the spec. -/
theorem namePart_ssl_spec :
    ∀ v ∈ sslValues, namePart "ssl" v = specRender "ssl" v := by
  intro v h
  fin_cases h <;> rfl

/-- Auth values render identically under `name_part` and the spec. -/
theorem namePart_auth_spec :
    ∀ v ∈ authValues, namePart "auth" v = specRender "auth" v := by
  intro v h
  fin_cases h <;> rfl

/-- Appending the name prefix and a hyphen is appending `test-`. -/
theorem test_dash_append (s : String) : "test" ++ "-" ++ s = "test-" ++ s := rfl

/-- Truthiness of the concrete `valgrind` string value. -/
theorem truthy_valgrind_str : (PyVal.str "valgrind").truthy = true := rfl

/-- Truthiness of the concrete `asan` string value. -/
theorem truthy_asan_str : (PyVal.str "asan").truthy = true := rfl

/-- Truthiness of the concrete `coverage` string value. -/
theorem truthy_coverage_str : (PyVal.str "coverage").truthy = true := rfl

/-- Concrete rendering of the truthy valgrind token on the code side. -/
theorem namePart_valgrind_lit : namePart "valgrind" (.str "valgrind") = "valgrind" := rfl

/-- Concrete rendering of the truthy asan token on the code side. -/
theorem namePart_asan_lit : namePart "asan" (.str "asan") = "asan" := rfl

/-- Concrete rendering of the truthy coverage token on the code side. -/
theorem namePart_coverage_lit : namePart "coverage" (.str "coverage") = "coverage" := rfl

/-- Concrete rendering of the truthy valgrind token on the spec side. -/
theorem specRender_valgrind_lit : specRender "valgrind" (.str "valgrind") = "valgrind" := rfl

/-- Concrete rendering of the truthy asan token on the spec side. -/
theorem specRender_asan_lit : specRender "asan" (.str "asan") = "asan" := rfl

/-- Concrete rendering of the truthy coverage token on the spec side. -/
theorem specRender_coverage_lit : specRender "coverage" (.str "coverage") = "coverage" := rfl

set_option maxRecDepth 4000 in
set_option maxHeartbeats 3200000 in
/-- C4: for every integration-task instance over the legal axis values,
the code's derived name equals the spec's name derivation (fixed prefix,
hyphen-joined per-axis tokens in axis order, tokens present iff truthy or
an always-token axis, `no`-prefixed falsy trio tokens, `replica-set` and
`sharded` renderings); and for every auth-task instance, the code's name
equals the spec's prefix + ssl display with `-nosasl` exactly when sasl is
falsy. -/
theorem nameDerivationMatchesSpec :
    (∀ vg asn cov ver topo au sa ss : PyVal,
      vg ∈ valgrindValues → asn ∈ asanValues → cov ∈ coverageValues →
      ver ∈ versionValues → topo ∈ topologyValues → au ∈ authValues →
      sa ∈ saslValues → ss ∈ sslValues →
      IntegrationTask.name ⟨vg, asn, cov, ver, topo, au, sa, ss⟩ =
        specIntegrationName ⟨vg, asn, cov, ver, topo, au, sa, ss⟩) ∧
    (∀ sa ss : PyVal, sa ∈ saslValues → ss ∈ authSslValues →
      AuthTask.name ⟨sa, ss⟩ = specAuthName ⟨sa, ss⟩) := by
  constructor
  · intro vg asn cov ver topo au sa ss hvg hasn hcov hver htopo hau hsa hss
    obtain ⟨hver1, hver2⟩ := namePart_version_spec ver hver
    obtain ⟨htopo1, htopo2⟩ := namePart_topology_spec topo htopo
    have hsa1 := namePart_sasl_spec sa hsa
    have hss1 := namePart_ssl_spec ss hss
    have hau1 := namePart_auth_spec au hau
    fin_cases hvg <;> fin_cases hasn <;> fin_cases hcov <;> fin_cases hau <;>
      simp [IntegrationTask.name, specIntegrationName, IntegrationTask.get,
        integration_task_axes, specToken, List.filter_cons, truthy_bool,
        truthy_valgrind_str, truthy_asan_str, truthy_coverage_str,
        hver1, hver2, htopo1, htopo2, hsa1, hss1, hau1,
        namePart_valgrind_lit, namePart_asan_lit, namePart_coverage_lit,
        specRender_valgrind_lit, specRender_asan_lit, specRender_coverage_lit,
        List.reduceOption_cons_of_some, List.reduceOption_cons_of_none,
        List.reduceOption_nil, test_dash_append]
  · intro sa ss hsa hss
    fin_cases hsa <;> fin_cases hss <;> rfl

set_option maxRecDepth 200000 in
set_option maxHeartbeats 8000000 in
/-- Witness for C4: both name derivations agree at concrete instances. -/
theorem nameDerivationMatchesSpec_witness :
    IntegrationTask.name valgrindScenario =
      specIntegrationName valgrindScenario ∧
    AuthTask.name ⟨.bool false, .str "openssl"⟩ =
      specAuthName ⟨.bool false, .str "openssl"⟩ :=
  ⟨nameDerivationMatchesSpec.1 _ _ _ _ _ _ _ _ (by decide) (by decide)
      (by decide) (by decide) (by decide) (by decide) (by decide) (by decide),
   nameDerivationMatchesSpec.2 _ _ (by decide) (by decide)⟩
